import Mathlib

/-!
Shallow embedding of the report_lab batch report-generation pipeline.

The repository has two parallel model/persistence stacks:
  * `base.py` + `db.py`    — status enum without REJECTED, `update_report_status`
    without an `error_msg` parameter, unconditional `create_report`;
  * `models.py` + `repository.py` — status enum with REJECTED, conditional
    `create_report`, atomic `claim_report_for_processing`, and
    `update_report_status` accepting `error_msg`.
The worker (`lambda_function.py`), the producer (`producer.py`) and the
dead-letter handler (`dlq_handler.py`) all import from `base`/`db`.

Timestamps (`datetime.now()`) are modelled as explicit `Nat` arguments.
DynamoDB items are modelled as `Row` records with optional attributes; the
ledger table is a partial map from the composite key `(report_id, batch_no)`.
Statuses are stored as the strings that `Status.value` produces, exactly as
DynamoDB stores them.
-/

namespace ReportLab

/-- `base.Status` (src/base.py lines 5-11).  Note: no REJECTED member. -/
inductive BaseStatus where
  | created
  | queued
  | inProgress
  | uploadStarted
  | finished
  | failed
deriving DecidableEq, Repr

/-- `Status.value` for `base.Status`. -/
def BaseStatus.value : BaseStatus → String
  | .created => "CREATED"
  | .queued => "QUEUED"
  | .inProgress => "IN_PROGRESS"
  | .uploadStarted => "UPLOAD_STARTED"
  | .finished => "FINISHED"
  | .failed => "FAILED"

/-- `models.Status` (src/models.py lines 5-12).  Includes REJECTED. -/
inductive ModelStatus where
  | created
  | queued
  | inProgress
  | uploadStarted
  | finished
  | rejected
  | failed
deriving DecidableEq, Repr

/-- `Status.value` for `models.Status`. -/
def ModelStatus.value : ModelStatus → String
  | .created => "CREATED"
  | .queued => "QUEUED"
  | .inProgress => "IN_PROGRESS"
  | .uploadStarted => "UPLOAD_STARTED"
  | .finished => "FINISHED"
  | .rejected => "REJECTED"
  | .failed => "FAILED"

/-- A ledger row (DynamoDB item of the `reports` table).  All attributes other
than the status may be absent, since `update_item` upserts only the attributes
it SETs.  The payload is the portfolio mapping ticker to share count. -/
structure Row where
  status : String
  s3_key : Option String := none
  error_msg : Option String := none
  payload : Option (List (String × ℚ)) := none
  created_at : Option Nat := none
  updated_at : Option Nat := none
deriving DecidableEq, Repr

/-- Composite ledger key `(report_id, batch_no)`. -/
abbrev Key := Int × Int

/-- The ledger table: a partial map from key to item. -/
abbrev Ledger := Key → Option Row

/-- Point update of the ledger map. -/
def ledgerSet (L : Ledger) (k : Key) (r : Row) : Ledger :=
  fun k2 => if k2 = k then some r else L k2

/-- `models.Report` (src/models.py lines 14-20), the argument shape of
`repository.create_report`. -/
structure ReportModel where
  report_id : Int
  batch_no : Int
  status : ModelStatus := .created
  s3_key : Option String := none
  payload : List (String × ℚ)
  error_msg : Option String := none
deriving DecidableEq, Repr

/-- `repository.create_report` (src/repository.py lines 25-48): `put_item` with
`ConditionExpression attribute_not_exists(report_id) AND
attribute_not_exists(batch_no)`.  The conditional put succeeds only when no
item exists at the key; on `ConditionalCheckFailedException` the function
returns the freshly built (not stored) item together with `created = false`
and the table is untouched. -/
def repoCreateReport (report : ReportModel) (now : Nat) (L : Ledger) :
    Ledger × Row × Bool :=
  let item : Row :=
    { status := report.status.value
      s3_key := report.s3_key
      payload := some report.payload
      created_at := some now
      updated_at := some now }
  match L (report.report_id, report.batch_no) with
  | none => (ledgerSet L (report.report_id, report.batch_no) item, item, true)
  | some _ => (L, item, false)

/-- `repository.claim_report_for_processing` (src/repository.py lines 51-73):
`update_item` with `ConditionExpression #status = :queued`, SETting the status
to IN_PROGRESS and refreshing `updated_at`.  On a missing item the condition
also fails (DynamoDB raises `ConditionalCheckFailedException` and creates
nothing), so the function returns false and the table is unchanged. -/
def claimReportForProcessing (report_id batch_no : Int) (now : Nat) (L : Ledger) :
    Ledger × Bool :=
  match L (report_id, batch_no) with
  | some r =>
      if r.status = ModelStatus.queued.value then
        (ledgerSet L (report_id, batch_no)
          { r with status := ModelStatus.inProgress.value, updated_at := some now },
         true)
      else
        (L, false)
  | none => (L, false)

/-- `db.update_report_status` (src/db.py lines 49-68): unconditional
`update_item` SETting status and `updated_at`, plus `s3_key` when given.  Note
this variant has no `error_msg` parameter.  DynamoDB `update_item` upserts: on
a missing key it creates an item holding exactly the SET attributes. -/
def dbUpdateReportStatus (report_id batch_no : Int) (status : String)
    (s3_key : Option String) (now : Nat) (L : Ledger) : Ledger × Row :=
  let updated : Row :=
    match L (report_id, batch_no) with
    | some r =>
        { r with
          status := status
          updated_at := some now
          s3_key := match s3_key with | some k => some k | none => r.s3_key }
    | none => { status := status, updated_at := some now, s3_key := s3_key }
  (ledgerSet L (report_id, batch_no) updated, updated)

/-! ### Market data: bars, the markets-table cache, and the fetch orchestrator -/

/-- One daily OHLCV bar of a price history (a row of the yfinance frame or of
a cached `records` entry).  `opn` is the Open column (`open` is a Lean
keyword); the date is an abstract ordinal. -/
structure Bar where
  date : Nat
  opn : ℚ
  high : ℚ
  low : ℚ
  close : ℚ
  volume : Int
deriving DecidableEq, Repr

/-- A markets-table item (src/market_data.py).  `records` is optional because
`_fetch_single_ticker` explicitly checks for the presence of the attribute. -/
structure CacheItem where
  period : String
  records : Option (List Bar)
  is_valid : Bool
deriving DecidableEq, Repr

/-- Which source served a ticker in `_fetch_single_ticker`. -/
inductive FetchSource where
  | db
  | api
deriving DecidableEq, Repr

/-- Equality of `Except` results is decidable when both sides are. -/
instance {e a : Type} [DecidableEq e] [DecidableEq a] : DecidableEq (Except e a)
  | .ok x, .ok y =>
      if h : x = y then .isTrue (by rw [h])
      else .isFalse (fun hc => h (Except.ok.inj hc))
  | .ok _, .error _ => .isFalse (fun hc => Except.noConfusion hc)
  | .error _, .ok _ => .isFalse (fun hc => Except.noConfusion hc)
  | .error x, .error y =>
      if h : x = y then .isTrue (by rw [h])
      else .isFalse (fun hc => h (Except.error.inj hc))

/-- The Python exception kinds the embedded code can raise. -/
inductive PyError where
  | tickerNotFound (msg : String)
  | indexError (msg : String)
  | typeError (msg : String)
  | valueError (msg : String)
  | attributeError (msg : String)
deriving DecidableEq, Repr

/-- `market_data.store_ticker_data` (src/market_data.py lines 52-75): the
markets-table item written for a fetched history (whole-entry replace,
`is_valid = true`). -/
def storeTickerData (period : String) (hist : List Bar) : CacheItem :=
  { period := period, records := some hist, is_valid := true }

/-- The API-fallback half of `_fetch_single_ticker` (src/lambda_function.py
lines 59-70): `yf.Ticker(...).history(period)` modelled as an environment
value `apiHist` (`none` = the call raised or returned nothing usable, `some
[]` = an empty frame).  On a non-empty history the result is stored to the
cache (`store_ticker_data`) and used; otherwise the typed
`TickerNotFoundException` is raised. -/
def fetchSingleTickerApi (ticker : String) (period : String)
    (apiHist : Option (List Bar)) :
    Except PyError (List Bar × FetchSource × Option CacheItem) :=
  match apiHist with
  | some hist =>
      if hist ≠ [] then .ok (hist, .api, some (storeTickerData period hist))
      else .error (.tickerNotFound
        ("Failed to fetch data for " ++ ticker ++ " from both DB and API"))
  | none => .error (.tickerNotFound
      ("Failed to fetch data for " ++ ticker ++ " from both DB and API"))

/-- `_fetch_single_ticker` (src/lambda_function.py lines 42-70): DB first —
the cached entry is used when the item exists, has a `records` attribute and
the rebuilt frame is non-empty; otherwise fall through to the API half.  The
third component of a success is the markets-table write performed (`none`
when served from the cache). -/
def fetchSingleTicker (ticker : String) (period : String)
    (cacheItem : Option CacheItem) (apiHist : Option (List Bar)) :
    Except PyError (List Bar × FetchSource × Option CacheItem) :=
  match cacheItem with
  | some item =>
      match item.records with
      | some recs =>
          if recs ≠ [] then .ok (recs, .db, none)
          else fetchSingleTickerApi ticker period apiHist
      | none => fetchSingleTickerApi ticker period apiHist
  | none => fetchSingleTickerApi ticker period apiHist

/-- `fetch_data` (src/lambda_function.py lines 73-86).  The thread pool
(`max_workers = len(tickers)`) is drained in submission order and the first
raising future propagates; the cache and API environments are read-only maps,
so the concurrent execution is equivalent to this sequential fold. -/
def fetchData (cache : String → Option CacheItem)
    (api : String → Option (List Bar)) (period : String) :
    List String → Except PyError (List (String × List Bar))
  | [] => .ok []
  | t :: ts =>
      match fetchSingleTicker t period (cache t) (api t) with
      | .error e => .error e
      | .ok (hist, _, _) =>
          match fetchData cache api period ts with
          | .error e => .error e
          | .ok rest => .ok ((t, hist) :: rest)

/-! ### Portfolio metrics (`calculate_portfolio_metrics`,
`calculate_portfolio_history`) -/

/-- One entry of the `results` list built by `calculate_portfolio_metrics`
(src/lambda_function.py lines 108-115). -/
structure Holding where
  ticker : String
  shares : ℚ
  current_price : ℚ
  day_change : ℚ
  position_value : ℚ
  cost_basis : ℚ
deriving DecidableEq, Repr

/-- The per-ticker body of the `calculate_portfolio_metrics` loop
(src/lambda_function.py lines 98-115), reached only for a non-benchmark
ticker present in `data` with a non-empty frame.  `iloc[-1]` and `iloc[-2]`
read the last and second-to-last closes; `iloc[-2]` on a single-bar series
raises IndexError (pandas: single positional indexer is out-of-bounds).
`iloc[-30]` is the close 30 positions from the end, taken when at least 30
bars exist, else `iloc[0]` (the oldest close). -/
def positionEntry (t : String) (shares : ℚ) (bars : List Bar) :
    Except PyError Holding :=
  if hlen : bars.length < 2 then
    .error (.indexError "single positional indexer is out-of-bounds")
  else
    let current_price :=
      (bars.map Bar.close).get ⟨bars.length - 1, by rw [List.length_map]; omega⟩
    let prev_close :=
      (bars.map Bar.close).get ⟨bars.length - 2, by rw [List.length_map]; omega⟩
    let day_change := ((current_price - prev_close) / prev_close) * 100
    let position_value := current_price * shares
    let cost_basis_price :=
      if h30 : 30 ≤ bars.length then
        (bars.map Bar.close).get ⟨bars.length - 30, by rw [List.length_map]; omega⟩
      else (bars.map Bar.close).get ⟨0, by rw [List.length_map]; omega⟩
    let cost_basis := cost_basis_price * shares
    .ok { ticker := t, shares := shares, current_price := current_price,
          day_change := day_change, position_value := position_value,
          cost_basis := cost_basis }

/-- `calculate_portfolio_metrics` (src/lambda_function.py lines 89-120).  The
loop over `portfolio.items()` skips the benchmark ticker, tickers missing
from `data`, and tickers with an empty frame; each processed entry appends a
holding and adds its position value and cost basis to the running totals.  An
IndexError raised by an entry aborts the whole computation.  (The recursion
argument is placed last for structural recursion; the Python signature is
`(portfolio, data, benchmark)`.) -/
def calculatePortfolioMetrics (data : List (String × List Bar))
    (benchmark : String) :
    List (String × ℚ) → Except PyError (List Holding × ℚ × ℚ)
  | [] => .ok ([], 0, 0)
  | (t, shares) :: rest =>
      if t = benchmark then calculatePortfolioMetrics data benchmark rest
      else
        match data.lookup t with
        | none => calculatePortfolioMetrics data benchmark rest
        | some bars =>
            if bars = [] then calculatePortfolioMetrics data benchmark rest
            else
              match positionEntry t shares bars with
              | .error e => .error e
              | .ok holding =>
                  match calculatePortfolioMetrics data benchmark rest with
                  | .error e => .error e
                  | .ok (hs, total_value, total_cost) =>
                      .ok (holding :: hs,
                           total_value + holding.position_value,
                           total_cost + holding.cost_basis)

/-- `calculate_portfolio_history` (src/lambda_function.py lines 123-141).
`tickers` excludes the hard-coded `'SPY'`; `min([...])` over the lengths of
the present tickers raises ValueError on an empty sequence; otherwise the
window is `min(days, min_length)` and each day sums `close.iloc[i] * shares`
over the tickers long enough for offset `i ∈ [-days, -1]`. -/
def calculatePortfolioHistory (portfolio : List (String × ℚ))
    (data : List (String × List Bar)) (days : Nat) :
    Except PyError (List ℚ) :=
  let tickers := (portfolio.filter (fun p => p.1 ≠ "SPY")).map Prod.fst
  match tickers.filterMap (fun t => (data.lookup t).map List.length) with
  | [] => .error (.valueError "min arg is an empty sequence")
  | l :: ls =>
      let min_length := ls.foldl Nat.min l
      let d := Nat.min days min_length
      .ok ((List.range d).map (fun j =>
        -- offset i = -(d - j): j = 0 is the oldest day of the window
        let i := d - j
        tickers.foldl (fun acc t =>
          match data.lookup t with
          | some bars =>
              if i ≤ bars.length then
                acc + (bars.map Bar.close).getD (bars.length - i) 0 *
                  ((portfolio.lookup t).getD 0)
              else acc
          | none => acc) 0))

/-! ### Advanced metrics (`calculate_advanced_metrics`): Sharpe ratio and
beta.

Prices and returns are modelled over `ℚ` (the floating-point representation
is out of scope); the one `sqrt` the code takes (`np.sqrt(252)`) lives in
`ℝ`.  Lean division by zero yields 0 where pandas would produce NaN/inf for a
zero price or an undersized sample; none of the guards the claims are about
depend on that corner (a comment marks each spot). -/

/-- `Series.pct_change().dropna()`: period-over-period returns
`(x_i+1 - x_i) / x_i`, the leading NaN dropped.  (A zero denominator is a
zero price, which pandas would turn into inf/NaN; modelled as Lean division.)
-/
def pctChange (xs : List ℚ) : List ℚ :=
  match xs with
  | [] => []
  | _ :: t => (xs.zip t).map (fun p => (p.2 - p.1) / p.1)

/-- `Series.mean()`: sum over length (0 for the empty series, where pandas
gives NaN — the guards never consult the mean of an empty series). -/
def listMean (xs : List ℚ) : ℚ := xs.sum / (xs.length : ℚ)

/-- `np.var` with its default `ddof = 0`: population variance, sum of squared
deviations over `n`. -/
def varPop (xs : List ℚ) : ℚ :=
  ((xs.map (fun x => (x - listMean xs) ^ 2)).sum) / (xs.length : ℚ)

/-- `np.cov(a, b)[0][1]` with its default normalization: sample covariance,
sum of products of deviations over `n - 1` (the guard ensures `n ≥ 2`
wherever the code reads it). -/
def covSample (xs ys : List ℚ) : ℚ :=
  (((xs.zip ys).map (fun p => (p.1 - listMean xs) * (p.2 - listMean ys))).sum) /
    ((xs.length : ℚ) - 1)

/-- `Series.std()` with pandas default `ddof = 1`: the sample variance under
the square root.  For `n ≤ 1` pandas yields NaN; here the truncated quotient
is 0 (the Sharpe guard then takes its zero branch instead of propagating
NaN). -/
def sampleVar (xs : List ℚ) : ℚ :=
  ((xs.map (fun x => (x - listMean xs) ^ 2)).sum) / ((xs.length : ℚ) - 1)

/-- `returns.std()` as a real number. -/
noncomputable def sampleStd (xs : List ℚ) : ℝ :=
  Real.sqrt ((sampleVar xs : ℚ) : ℝ)

/-- The Sharpe-ratio line of `calculate_advanced_metrics`
(src/lambda_function.py lines 145-148): `(returns.mean() / returns.std()) *
np.sqrt(252) if returns.std() != 0 else 0` with
`returns = pd.Series(portfolio_values).pct_change().dropna()`. -/
noncomputable def sharpe (portfolioValues : List ℚ) : ℝ :=
  let returns := pctChange portfolioValues
  if sampleStd returns ≠ 0 then
    ((listMean returns : ℚ) : ℝ) / sampleStd returns * Real.sqrt 252
  else 0

/-- Python list/Series slicing `xs[-n:]` / `iloc[-n:]`.  Note the `-0` quirk:
for `n = 0` the slice is `xs[0:]`, the whole sequence, not the empty one. -/
def takeLastPy (xs : List ℚ) (n : Nat) : List ℚ :=
  if n = 0 then xs else xs.drop (xs.length - n)

/-- `benchmark_returns` (src/lambda_function.py line 155):
`benchmark_data.Close.iloc[-len(portfolio_values):].pct_change().dropna()`. -/
def benchReturns (portfolioValues benchmarkClose : List ℚ) : List ℚ :=
  pctChange (takeLastPy benchmarkClose portfolioValues.length)

/-- `min_len = min(len(returns), len(benchmark_returns))`
(src/lambda_function.py line 157). -/
def overlapLen (portfolioValues benchmarkClose : List ℚ) : Nat :=
  Nat.min (pctChange portfolioValues).length
    (benchReturns portfolioValues benchmarkClose).length

/-- `returns_aligned = returns.iloc[-min_len:]` (src/lambda_function.py line
158). -/
def alignedReturns (portfolioValues benchmarkClose : List ℚ) : List ℚ :=
  takeLastPy (pctChange portfolioValues) (overlapLen portfolioValues benchmarkClose)

/-- `benchmark_aligned = benchmark_returns.iloc[-min_len:]`
(src/lambda_function.py line 159). -/
def alignedBench (portfolioValues benchmarkClose : List ℚ) : List ℚ :=
  takeLastPy (benchReturns portfolioValues benchmarkClose)
    (overlapLen portfolioValues benchmarkClose)

/-- The beta block of `calculate_advanced_metrics` (src/lambda_function.py
lines 153-168).  `benchmarkClose` is the Close column of `benchmark_data`
(`none` when `data.get('SPY', None)` found nothing; `len(benchmark_data)` is
its row count). -/
def betaMetric (portfolioValues : List ℚ) (benchmarkClose : Option (List ℚ)) : ℚ :=
  match benchmarkClose with
  | none => 1
  | some bcs =>
      if bcs.length = 0 then 1
      else
        if 1 < (alignedReturns portfolioValues bcs).length ∧
            1 < (alignedBench portfolioValues bcs).length then
          if varPop (alignedBench portfolioValues bcs) ≠ 0 then
            covSample (alignedReturns portfolioValues bcs)
              (alignedBench portfolioValues bcs) /
              varPop (alignedBench portfolioValues bcs)
          else 1
        else 1

/-! ### The worker (`lambda_function.lambda_handler`, per record) -/

/-- One parsed queue message body: `{report_id, batch_no, payload}`
(src/lambda_function.py lines 425-431). -/
structure JobMessage where
  report_id : Int
  batch_no : Int
  payload : List (String × ℚ)
deriving DecidableEq, Repr

/-- The observable side effects of the worker: the reports ledger, the
messages sent to the dead-letter queue, and the S3 object keys uploaded. -/
structure WorkerState where
  ledger : Ledger
  dlq : List String
  uploads : List String

/-- How one record's processing ends.  `raisedAttributeError` is the crash of
the rejection handler itself (`Status.REJECTED` looked up on `base.Status`,
which has no such member); `raisedOther` is the generic `except Exception`
arm, which re-raises so the queue redelivers.  Either raise aborts the
handler. -/
inductive Outcome where
  | finishedOk
  | raisedAttributeError
  | raisedOther
deriving DecidableEq, Repr

/-- The S3 object key (src/lambda_function.py line 444), the timestamp
abstracted to `now`. -/
def s3KeyFor (batch_no report_id : Int) (now : Nat) : String :=
  "reports/batch-" ++ toString batch_no ++ "/" ++ toString report_id ++
    "/portfolio_dashboard_" ++ toString now ++ ".pdf"

/-- Per-record worker processing (src/lambda_function.py lines 424-477),
against read-only cache/API environments, with all `datetime.now()` calls
abstracted to the single `now`.

Control flow of the source:
1. the try block starts with an unconditional
   `update_report_status(..., IN_PROGRESS)` — there is no call to
   `repository.claim_report_for_processing` anywhere in the worker, so the
   write happens whatever the row's current status;
2. `collect_data_and_generate_report` fetches every payload ticker
   (`fetch_data`), computes position metrics, the 30-day history, the
   advanced metrics and the PDF (the last two are pure float/render work that
   cannot raise and whose output only feeds the PDF body);
3. success: `update_report_status(UPLOAD_STARTED)`, `s3.put_object`,
   `update_report_status(FINISHED, s3_key)`;
4. `except TickerNotFoundException`: the handler's first statement evaluates
   `Status.REJECTED`, but `Status` here is `base.Status`, which has no
   REJECTED member — the lookup raises AttributeError, so no REJECTED ledger
   write, no `error_msg`, and no DLQ send ever happen, and the new exception
   propagates out of the handler (a sibling `except` clause does not catch
   exceptions raised inside another `except` block);
5. `except Exception`: logs and re-raises (queue redelivery). -/
def processRecord (cache : String → Option CacheItem)
    (api : String → Option (List Bar)) (msg : JobMessage) (now : Nat)
    (s : WorkerState) : Outcome × WorkerState :=
  let L1 := (dbUpdateReportStatus msg.report_id msg.batch_no
    BaseStatus.inProgress.value none now s.ledger).1
  let s1 := { s with ledger := L1 }
  match fetchData cache api "2mo" (msg.payload.map Prod.fst) with
  | .error (.tickerNotFound _) =>
      -- `report.status = Status.REJECTED` raises AttributeError (base.Status
      -- has no REJECTED member): nothing after it in the handler runs.
      (.raisedAttributeError, s1)
  | .error _ => (.raisedOther, s1)
  | .ok data =>
      match calculatePortfolioMetrics data "SPY" msg.payload with
      | .error _ => (.raisedOther, s1)
      | .ok _ =>
          match calculatePortfolioHistory msg.payload data 30 with
          | .error _ => (.raisedOther, s1)
          | .ok _ =>
              -- calculate_advanced_metrics and create_pdf_dashboard: pure
              -- computation and rendering, no modelled side effects.
              let L2 := (dbUpdateReportStatus msg.report_id msg.batch_no
                BaseStatus.uploadStarted.value none now s1.ledger).1
              let key := s3KeyFor msg.batch_no msg.report_id now
              let L3 := (dbUpdateReportStatus msg.report_id msg.batch_no
                BaseStatus.finished.value (some key) now L2).1
              (.finishedOk,
               { ledger := L3
                 dlq := s1.dlq
                 uploads := s1.uploads ++ [key] })

/-! ### The dead-letter reconciler (`dlq_handler.lambda_handler`) -/

/-- The fields the reconciler extracts from an (unwrapped) message body;
`none` models an absent key, whose lookup raises KeyError. -/
structure DlqInner where
  report_id : Option Int
  batch_no : Option Int
deriving DecidableEq, Repr

/-- A parsed DLQ message body: either a wrapped copy of the original delivery
envelope (it has an inner `body` field, itself JSON) or a raw job payload. -/
inductive DlqBody where
  | wrapped (inner : DlqInner)
  | raw (inner : DlqInner)
deriving DecidableEq, Repr

/-- One iteration of the reconciler loop (src/dlq_handler.py lines 17-40).
The record is `none` when `json.loads` fails.  After unwrapping and key
extraction the loop calls
`update_report_status(report_id, batch_no, Status.FAILED, error_msg=...)` —
but the imported function is `db.update_report_status` (src/db.py lines
49-68), whose signature has no `error_msg` parameter, so the call raises
TypeError before any ledger access; the per-message `except Exception` logs
it and moves on without incrementing the count.  Returns the ledger and
whether the message counted as processed. -/
def dlqProcessOne (L : Ledger) (record : Option DlqBody) : Ledger × Bool :=
  match record with
  | none => (L, false)            -- json.loads raised; caught and logged
  | some b =>
      let inner := match b with
        | .wrapped i => i         -- "body" present: unwrap one level
        | .raw i => i
      match inner.report_id, inner.batch_no with
      | some report_id, some batch_no =>
          -- db.update_report_status(report_id, batch_no, FAILED,
          -- error_msg=...): unexpected keyword argument -> TypeError,
          -- caught by the per-message handler; no ledger write.
          let callResult : Except PyError (Ledger × Row) :=
            .error (.typeError
              "update_report_status got an unexpected keyword argument")
          match callResult, report_id, batch_no with
          | .ok (L2, _), _, _ => (L2, true)
          | .error _, _, _ => (L, false)
      | _, _ => (L, false)        -- KeyError on extraction; caught and logged

/-- `dlq_handler.lambda_handler` (src/dlq_handler.py lines 12-43): fold the
records, counting the successfully processed ones. -/
def dlqLambdaHandler (records : List (Option DlqBody)) (L : Ledger) :
    Nat × Ledger :=
  records.foldl
    (fun acc record =>
      let step := dlqProcessOne acc.2 record
      (acc.1 + (if step.2 then 1 else 0), step.1))
    (0, L)

/-! ### Concrete ledger fixtures used by witnesses -/

/-- The empty ledger. -/
def emptyLedger : Ledger := fun _ => none

/-- A row freshly enqueued: status QUEUED. -/
def queuedRow : Row := { status := "QUEUED" }

/-- A ledger holding one QUEUED row at key (1, 2). -/
def ledgerWithQueued : Ledger := ledgerSet emptyLedger (1, 2) queuedRow

/-- A sample report model for create witnesses. -/
def sampleReport : ReportModel :=
  { report_id := 1, batch_no := 2, status := .created, payload := [("AAPL", 9)] }

/-- A flat bar at close `c`. -/
def mkBar (d : Nat) (c : ℚ) : Bar :=
  { date := d, opn := c, high := c, low := c, close := c, volume := 100 }

/-- A two-bar history. -/
def twoBars : List Bar := [mkBar 1 10, mkBar 2 11]

/-- A cache environment holding two-bar histories for AAPL and SPY. -/
def goodCache : String → Option CacheItem := fun t =>
  if t = "AAPL" then some (storeTickerData "2mo" twoBars)
  else if t = "SPY" then some (storeTickerData "2mo" twoBars)
  else none

/-- A cache environment where AAPL has exactly one bar. -/
def oneBarCache : String → Option CacheItem := fun t =>
  if t = "AAPL" then some (storeTickerData "2mo" [mkBar 1 10])
  else if t = "SPY" then some (storeTickerData "2mo" twoBars)
  else none

/-- An empty cache. -/
def emptyCache : String → Option CacheItem := fun _ => none

/-- A live source that always fails. -/
def noApi : String → Option (List Bar) := fun _ => none

/-- A duplicate delivery of job (1, 7): its ledger row is already
IN_PROGRESS. -/
def dupMsg : JobMessage :=
  { report_id := 1, batch_no := 7, payload := [("AAPL", 9), ("SPY", 20)] }

/-- Worker state in which job (1, 7) is already claimed (IN_PROGRESS). -/
def dupState : WorkerState :=
  { ledger := ledgerSet emptyLedger (1, 7)
      { status := "IN_PROGRESS", updated_at := some 0 }
    dlq := []
    uploads := [] }

/-- A job whose only ticker resolves nowhere. -/
def unresolvableMsg : JobMessage :=
  { report_id := 1, batch_no := 1, payload := [("ZZZZ", 1)] }

/-- Worker state in which job (1, 1) is QUEUED and nothing happened yet. -/
def queuedState : WorkerState :=
  { ledger := ledgerSet emptyLedger (1, 1) queuedRow, dlq := [], uploads := [] }

/-- A job whose AAPL history has a single bar. -/
def oneBarMsg : JobMessage :=
  { report_id := 2, batch_no := 7, payload := [("AAPL", 9), ("SPY", 20)] }

/-- A fresh worker state over an empty ledger. -/
def freshState : WorkerState :=
  { ledger := emptyLedger, dlq := [], uploads := [] }

/-- A well-formed wrapped dead-letter message naming job (1, 2). -/
def dlqWrapped : Option DlqBody := some (.wrapped ⟨some 1, some 2⟩)

/-- The holding produced for AAPL with two bars (closes 10, 11) and 9
shares. -/
def c9Holding : Holding :=
  { ticker := "AAPL", shares := 9, current_price := 11, day_change := 10,
    position_value := 99, cost_basis := 90 }


/-- Claim C2: `claim_report_for_processing` returns true and sets the status to
IN_PROGRESS exactly when the current status is QUEUED; on any other current
status (or a missing row) it returns false and leaves the ledger unchanged;
and starting from a QUEUED row, of two successive claim calls for the same key
the first returns true and the second returns false. -/
theorem claim_queued_transition (L : Ledger) (rid bno : Int) (now now2 : Nat) :
    ((claimReportForProcessing rid bno now L).2 = true ↔
      ∃ r, L (rid, bno) = some r ∧ r.status = "QUEUED")
    ∧ (∀ r, L (rid, bno) = some r → r.status = "QUEUED" →
        (claimReportForProcessing rid bno now L).1 (rid, bno) =
          some { r with status := "IN_PROGRESS", updated_at := some now })
    ∧ ((claimReportForProcessing rid bno now L).2 = false →
        (claimReportForProcessing rid bno now L).1 = L)
    ∧ (∀ r, L (rid, bno) = some r → r.status = "QUEUED" →
        (claimReportForProcessing rid bno now L).2 = true ∧
        (claimReportForProcessing rid bno now2
          ((claimReportForProcessing rid bno now L).1)).2 = false) := by
  refine ⟨?_, ?_, ?_, ?_⟩
  · cases h : L (rid, bno) with
    | none => simp [claimReportForProcessing, h]
    | some r =>
        by_cases hs : r.status = "QUEUED"
        · simp [claimReportForProcessing, h, ModelStatus.value, hs]
        · simp [claimReportForProcessing, h, ModelStatus.value, hs]
  · intro r h hs
    simp [claimReportForProcessing, h, ModelStatus.value, hs, ledgerSet]
  · intro hfalse
    cases h : L (rid, bno) with
    | none => simp [claimReportForProcessing, h]
    | some r =>
        by_cases hs : r.status = "QUEUED"
        · simp [claimReportForProcessing, h, ModelStatus.value, hs] at hfalse
        · simp [claimReportForProcessing, h, ModelStatus.value, hs]
  · intro r h hs
    constructor
    · simp [claimReportForProcessing, h, ModelStatus.value, hs]
    · simp [claimReportForProcessing, h, ModelStatus.value, hs, ledgerSet]

/-- Witness for C2 at a concrete ledger: the first claim of the QUEUED row
(1, 2) returns true and the immediately following claim returns false. -/
theorem claim_queued_transition_witness :
    (claimReportForProcessing 1 2 5 ledgerWithQueued).2 = true ∧
    (claimReportForProcessing 1 2 6
      ((claimReportForProcessing 1 2 5 ledgerWithQueued).1)).2 = false :=
  (claim_queued_transition ledgerWithQueued 1 2 5 6).2.2.2 queuedRow
    (by simp [ledgerWithQueued, ledgerSet]) rfl

/-- Claim C3: `repository.create_report` inserts iff no row exists for the
composite key; on conflict it returns created = false, performs no write, and
leaves the existing row unmodified; in particular a second call with the same
key after a successful first call returns created = false and leaves the
first-written row in place. -/
theorem create_report_conditional (L : Ledger) (rep rep2 : ReportModel)
    (now now2 : Nat) :
    ((repoCreateReport rep now L).2.2 = true ↔
      L (rep.report_id, rep.batch_no) = none)
    ∧ ((repoCreateReport rep now L).2.2 = false →
        (repoCreateReport rep now L).1 = L)
    ∧ (∀ r, L (rep.report_id, rep.batch_no) = some r →
        (repoCreateReport rep now L).1 (rep.report_id, rep.batch_no) = some r)
    ∧ (rep2.report_id = rep.report_id → rep2.batch_no = rep.batch_no →
        L (rep.report_id, rep.batch_no) = none →
        (repoCreateReport rep2 now2 (repoCreateReport rep now L).1).2.2 = false ∧
        (repoCreateReport rep2 now2 (repoCreateReport rep now L).1).1
            (rep.report_id, rep.batch_no) =
          some ((repoCreateReport rep now L).2.1)) := by
  refine ⟨?_, ?_, ?_, ?_⟩
  · cases h : L (rep.report_id, rep.batch_no) with
    | none => simp [repoCreateReport, h]
    | some r => simp [repoCreateReport, h]
  · intro hfalse
    cases h : L (rep.report_id, rep.batch_no) with
    | none => simp [repoCreateReport, h] at hfalse
    | some r => simp [repoCreateReport, h]
  · intro r h
    simp [repoCreateReport, h]
  · intro hid hbno h
    constructor
    · simp [repoCreateReport, h, hid, hbno, ledgerSet]
    · simp [repoCreateReport, h, hid, hbno, ledgerSet]

/-- Witness for C3 at a concrete ledger: the first create into the empty
ledger reports created = true; repeating it reports created = false and the
row it finds is the one written by the first call. -/
theorem create_report_conditional_witness :
    (repoCreateReport sampleReport 7 emptyLedger).2.2 = true ∧
    (repoCreateReport sampleReport 8
      (repoCreateReport sampleReport 7 emptyLedger).1).2.2 = false :=
  ⟨(create_report_conditional emptyLedger sampleReport sampleReport 7 8).1.mpr rfl,
   ((create_report_conditional emptyLedger sampleReport sampleReport 7 8).2.2.2
      rfl rfl rfl).1⟩

/-- Claim C6: per ticker, the orchestrator uses the cached entry iff it is
present and non-empty (no cache write); otherwise it uses the live source and
persists the result to the cache on success; when neither resolves, it raises
the typed ticker-not-found condition. -/
theorem fetch_cache_then_api (ticker period : String)
    (item : Option CacheItem) (apiHist : Option (List Bar)) :
    (∀ recs, item.bind CacheItem.records = some recs → recs ≠ [] →
      fetchSingleTicker ticker period item apiHist = .ok (recs, .db, none))
    ∧ ((item.bind CacheItem.records = none ∨ item.bind CacheItem.records = some []) →
        ∀ hist, apiHist = some hist → hist ≠ [] →
          fetchSingleTicker ticker period item apiHist =
            .ok (hist, .api, some (storeTickerData period hist)))
    ∧ ((item.bind CacheItem.records = none ∨ item.bind CacheItem.records = some []) →
        (apiHist = none ∨ apiHist = some []) →
        fetchSingleTicker ticker period item apiHist =
          .error (.tickerNotFound
            ("Failed to fetch data for " ++ ticker ++ " from both DB and API"))) := by
  refine ⟨?_, ?_, ?_⟩
  · intro recs hrecs hne
    cases item with
    | none => simp at hrecs
    | some it =>
        cases hr : it.records with
        | none => simp [hr] at hrecs
        | some rs =>
            simp [hr] at hrecs
            subst hrecs
            simp [fetchSingleTicker, hr, hne]
  · intro hcache hist hapi hne
    subst hapi
    cases item with
    | none => simp [fetchSingleTicker, fetchSingleTickerApi, hne]
    | some it =>
        cases hr : it.records with
        | none => simp [fetchSingleTicker, fetchSingleTickerApi, hr, hne]
        | some rs =>
            simp [hr] at hcache
            simp [fetchSingleTicker, fetchSingleTickerApi, hr, hcache, hne]
  · intro hcache hapi
    have hapiResult : fetchSingleTickerApi ticker period apiHist =
        .error (.tickerNotFound
          ("Failed to fetch data for " ++ ticker ++ " from both DB and API")) := by
      rcases hapi with h | h <;> subst h <;> simp [fetchSingleTickerApi]
    cases item with
    | none => simpa [fetchSingleTicker] using hapiResult
    | some it =>
        cases hr : it.records with
        | none => simpa [fetchSingleTicker, hr] using hapiResult
        | some rs =>
            simp [hr] at hcache
            simpa [fetchSingleTicker, hr, hcache] using hapiResult

/-- Witness for C6: a ticker absent from the cache whose live fetch also
fails raises the typed not-found condition. -/
theorem fetch_cache_then_api_witness :
    fetchSingleTicker "ZZZZ" "2mo" none none =
      .error (.tickerNotFound
        "Failed to fetch data for ZZZZ from both DB and API") :=
  (fetch_cache_then_api "ZZZZ" "2mo" none none).2.2 (Or.inl rfl) (Or.inl rfl)


/-- A successful `positionEntry` needs at least two bars. -/
theorem positionEntry_min_bars (t : String) (shares : ℚ) (bars : List Bar)
    (h : Holding) (hok : positionEntry t shares bars = .ok h) :
    2 ≤ bars.length := by
  unfold positionEntry at hok
  split at hok
  · simp at hok
  · next hlen => omega

/-- `positionEntry` can only fail with the fixed IndexError. -/
theorem positionEntry_error_shape (t : String) (shares : ℚ) (bars : List Bar)
    (e : PyError) (herr : positionEntry t shares bars = .error e) :
    e = .indexError "single positional indexer is out-of-bounds" := by
  unfold positionEntry at herr
  split at herr
  · injection herr with herr
    exact herr.symm
  · simp at herr

/-- Field characterization of a successful `positionEntry`. -/
theorem positionEntry_fields (t : String) (shares : ℚ) (bars : List Bar)
    (h : Holding) (hok : positionEntry t shares bars = .ok h) :
    h.ticker = t ∧ h.shares = shares ∧
    (bars.map Bar.close).getLast? = some h.current_price ∧
    h.position_value = h.current_price * shares ∧
    ∃ cb, (bars.map Bar.close).get?
        (if 30 ≤ bars.length then bars.length - 30 else 0) = some cb ∧
      h.cost_basis = cb * shares := by
  unfold positionEntry at hok
  split at hok
  · simp at hok
  · next hlen =>
      injection hok with hok
      subst hok
      have hmap : (bars.map Bar.close).length = bars.length :=
        List.length_map _ _
      refine ⟨rfl, rfl, ?_, rfl, ?_⟩
      · rw [List.getLast?_eq_get?]
        conv_lhs => rw [hmap]
        rw [List.get?_eq_get (by omega)]
      · by_cases h30 : 30 ≤ bars.length
        · refine ⟨(bars.map Bar.close).get
              ⟨bars.length - 30, by rw [List.length_map]; omega⟩, ?_, ?_⟩
          · rw [if_pos h30, List.get?_eq_get (by omega)]
          · simp only [h30, dif_pos]
        · refine ⟨(bars.map Bar.close).get
              ⟨0, by rw [List.length_map]; omega⟩, ?_, ?_⟩
          · rw [if_neg h30, List.get?_eq_get (by omega)]
          · simp only [h30, dif_neg, not_false_iff]


/-- A successful `calculate_portfolio_metrics` run implies every processed
(non-benchmark, present, non-empty) ticker had at least two bars. -/
theorem metricsOk_bars (data : List (String × List Bar)) (benchmark : String)
    (portfolio : List (String × ℚ)) :
    ∀ (res : List Holding × ℚ × ℚ),
      calculatePortfolioMetrics data benchmark portfolio = .ok res →
      ∀ t shares bars, (t, shares) ∈ portfolio → t ≠ benchmark →
        data.lookup t = some bars → bars ≠ [] → 2 ≤ bars.length := by
  induction portfolio with
  | nil =>
      intro res hok t shares bars hmem hneq hlookup hne
      simp at hmem
  | cons p rest ih =>
      obtain ⟨t0, s0⟩ := p
      intro res hok t shares bars hmem hneq hlookup hne
      rw [List.mem_cons] at hmem
      rw [calculatePortfolioMetrics] at hok
      split at hok
      · next hb =>
          rcases hmem with heq | hmem
          · cases heq; exact absurd hb hneq
          · exact ih res hok t shares bars hmem hneq hlookup hne
      · next hb =>
          split at hok
          · next hlk =>
              rcases hmem with heq | hmem
              · cases heq; rw [hlookup] at hlk; cases hlk
              · exact ih res hok t shares bars hmem hneq hlookup hne
          · next bars0 hlk =>
              split at hok
              · next hb0 =>
                  rcases hmem with heq | hmem
                  · cases heq
                    rw [hlookup] at hlk
                    injection hlk with hlk
                    subst hlk
                    exact absurd hb0 hne
                  · exact ih res hok t shares bars hmem hneq hlookup hne
              · next hb0 =>
                  split at hok
                  · next e hpe => cases hok
                  · next holding hpe =>
                      split at hok
                      · next e hrec => cases hok
                      · next hs0 tv0 tc0 hrec =>
                          rcases hmem with heq | hmem
                          · cases heq
                            rw [hlookup] at hlk
                            injection hlk with hlk
                            subst hlk
                            exact positionEntry_min_bars _ _ _ _ hpe
                          · exact ih _ hrec t shares bars hmem hneq hlookup hne

/-- `calculate_portfolio_metrics` either succeeds or raises the fixed
IndexError — nothing else. -/
theorem metrics_error_shape (data : List (String × List Bar))
    (benchmark : String) (portfolio : List (String × ℚ)) :
    (∃ res, calculatePortfolioMetrics data benchmark portfolio = .ok res) ∨
      calculatePortfolioMetrics data benchmark portfolio =
        .error (.indexError "single positional indexer is out-of-bounds") := by
  induction portfolio with
  | nil => exact Or.inl ⟨([], 0, 0), rfl⟩
  | cons p rest ih =>
      obtain ⟨t0, s0⟩ := p
      rw [calculatePortfolioMetrics]
      split
      · exact ih
      · split
        · exact ih
        · next bars0 hlk =>
            split
            · exact ih
            · next hb0 =>
                cases hpe : positionEntry t0 s0 bars0 with
                | error e =>
                    right
                    rw [positionEntry_error_shape _ _ _ _ hpe]
                | ok holding =>
                    cases hrec : calculatePortfolioMetrics data benchmark rest with
                    | error e =>
                        rcases ih with ⟨res0, h0⟩ | h0
                        · rw [h0] at hrec; cases hrec
                        · right
                          rw [h0] at hrec
                          injection hrec with hrec
                          subst hrec
                          rfl
                    | ok res0 =>
                        left
                        obtain ⟨hs0, tv0, tc0⟩ := res0
                        exact ⟨(holding :: hs0, tv0 + holding.position_value,
                          tc0 + holding.cost_basis), rfl⟩

/-- A successful run contains, for every qualifying portfolio entry, the
holding produced by `positionEntry` for that entry. -/
theorem metricsOk_member (data : List (String × List Bar)) (benchmark : String)
    (portfolio : List (String × ℚ)) :
    ∀ (hs : List Holding) (tv tc : ℚ),
      calculatePortfolioMetrics data benchmark portfolio = .ok (hs, tv, tc) →
      ∀ t shares bars, (t, shares) ∈ portfolio → t ≠ benchmark →
        data.lookup t = some bars → bars ≠ [] →
        ∃ h ∈ hs, positionEntry t shares bars = .ok h := by
  induction portfolio with
  | nil =>
      intro hs tv tc hok t shares bars hmem
      simp at hmem
  | cons p rest ih =>
      obtain ⟨t0, s0⟩ := p
      intro hs tv tc hok t shares bars hmem hneq hlookup hne
      rw [List.mem_cons] at hmem
      rw [calculatePortfolioMetrics] at hok
      split at hok
      · next hb =>
          rcases hmem with heq | hmem
          · cases heq; exact absurd hb hneq
          · exact ih hs tv tc hok t shares bars hmem hneq hlookup hne
      · next hb =>
          split at hok
          · next hlk =>
              rcases hmem with heq | hmem
              · cases heq; rw [hlookup] at hlk; cases hlk
              · exact ih hs tv tc hok t shares bars hmem hneq hlookup hne
          · next bars0 hlk =>
              split at hok
              · next hb0 =>
                  rcases hmem with heq | hmem
                  · cases heq
                    rw [hlookup] at hlk
                    injection hlk with hlk
                    subst hlk
                    exact absurd hb0 hne
                  · exact ih hs tv tc hok t shares bars hmem hneq hlookup hne
              · next hb0 =>
                  split at hok
                  · next e hpe => cases hok
                  · next holding hpe =>
                      split at hok
                      · next e hrec => cases hok
                      · next hs0 tv0 tc0 hrec =>
                          injection hok with hok0
                          have hok1 : hs = holding :: hs0 := by
                            have hfst := congrArg Prod.fst hok0
                            simpa using hfst.symm
                          rcases hmem with heq | hmem
                          · cases heq
                            rw [hlookup] at hlk
                            injection hlk with hlk
                            subst hlk
                            refine ⟨holding, ?_, hpe⟩
                            rw [hok1]
                            exact List.mem_cons_self _ _
                          · obtain ⟨h1, hmem1, hpe1⟩ :=
                              ih hs0 tv0 tc0 hrec t shares bars hmem hneq hlookup hne
                            refine ⟨h1, ?_, hpe1⟩
                            rw [hok1]
                            exact List.mem_cons_of_mem _ hmem1


/-- Claim C9: every qualifying non-benchmark ticker yields a holding whose
position value is the latest close times the share count, and whose cost
basis uses the close 30 bars from the end when at least 30 bars exist, else
the oldest close. -/
theorem position_value_and_cost_basis
    (data : List (String × List Bar)) (benchmark : String)
    (portfolio : List (String × ℚ)) (hs : List Holding) (tv tc : ℚ)
    (t : String) (shares : ℚ) (bars : List Bar)
    (hok : calculatePortfolioMetrics data benchmark portfolio = .ok (hs, tv, tc))
    (hmem : (t, shares) ∈ portfolio) (hneq : t ≠ benchmark)
    (hlookup : data.lookup t = some bars) (hlen : 2 ≤ bars.length) :
    ∃ h ∈ hs, h.ticker = t ∧ h.shares = shares ∧
      (bars.map Bar.close).getLast? = some h.current_price ∧
      h.position_value = h.current_price * shares ∧
      ∃ cb, (bars.map Bar.close).get?
          (if 30 ≤ bars.length then bars.length - 30 else 0) = some cb ∧
        h.cost_basis = cb * shares := by
  have hne : bars ≠ [] := by
    intro hnil
    subst hnil
    simp at hlen
  obtain ⟨h, hmemh, hpe⟩ :=
    metricsOk_member data benchmark portfolio hs tv tc hok t shares bars hmem
      hneq hlookup hne
  exact ⟨h, hmemh, positionEntry_fields t shares bars h hpe⟩

/-- Witness for C9 on the two-bar AAPL portfolio. -/
theorem position_value_and_cost_basis_witness :
    ∃ h ∈ [c9Holding], h.ticker = "AAPL" ∧ h.shares = 9 ∧
      (twoBars.map Bar.close).getLast? = some h.current_price ∧
      h.position_value = h.current_price * 9 ∧
      ∃ cb, (twoBars.map Bar.close).get?
          (if 30 ≤ twoBars.length then twoBars.length - 30 else 0) = some cb ∧
        h.cost_basis = cb * 9 :=
  position_value_and_cost_basis [("AAPL", twoBars)] "SPY" [("AAPL", 9)]
    [c9Holding] 99 90 "AAPL" 9 twoBars
    (by
      norm_num [calculatePortfolioMetrics, positionEntry, twoBars, mkBar,
        c9Holding, List.get]
      decide)
    (by decide) (by decide) (by decide) (by decide)

/-- Claim C10: a portfolio entry whose series has exactly one bar makes
`calculate_portfolio_metrics` raise IndexError instead of producing metrics,
and the worker then follows the generic re-raise (retry) path. -/
theorem single_bar_index_error :
    (∀ (data : List (String × List Bar)) (benchmark : String)
        (portfolio : List (String × ℚ)) (t : String) (shares : ℚ) (b : Bar),
        (t, shares) ∈ portfolio → t ≠ benchmark → data.lookup t = some [b] →
        calculatePortfolioMetrics data benchmark portfolio =
          .error (.indexError "single positional indexer is out-of-bounds"))
    ∧ (processRecord oneBarCache noApi oneBarMsg 3 freshState).1 =
        .raisedOther := by
  constructor
  · intro data benchmark portfolio t shares b hmem hneq hlookup
    rcases metrics_error_shape data benchmark portfolio with ⟨res, hok⟩ | herr
    · have h2 := metricsOk_bars data benchmark portfolio res hok t shares [b]
        hmem hneq hlookup (by simp)
      simp at h2
    · exact herr
  · decide

/-- Witness for C10: a one-bar AAPL series aborts the metrics computation
with the IndexError. -/
theorem single_bar_index_error_witness :
    calculatePortfolioMetrics [("AAPL", [mkBar 1 10])] "SPY" [("AAPL", 9)] =
      .error (.indexError "single positional indexer is out-of-bounds") :=
  single_bar_index_error.1 [("AAPL", [mkBar 1 10])] "SPY" [("AAPL", 9)]
    "AAPL" 9 (mkBar 1 10) (by decide) (by decide) (by decide)


/-- Length of the Python slice `xs[-n:]`. -/
theorem takeLastPy_length (xs : List ℚ) (n : Nat) :
    (takeLastPy xs n).length =
      if n = 0 then xs.length else xs.length - (xs.length - n) := by
  unfold takeLastPy
  split
  · rfl
  · rw [List.length_drop]

/-- The alignment guard of the beta block holds exactly when at least two
points overlap. -/
theorem beta_guard_iff (pv bcs : List ℚ) :
    (1 < (alignedReturns pv bcs).length ∧ 1 < (alignedBench pv bcs).length) ↔
      2 ≤ overlapLen pv bcs := by
  have hle1 : overlapLen pv bcs ≤ (pctChange pv).length :=
    Nat.min_le_left _ _
  have hle2 : overlapLen pv bcs ≤ (benchReturns pv bcs).length :=
    Nat.min_le_right _ _
  have hm0 : overlapLen pv bcs = 0 →
      (pctChange pv).length = 0 ∨ (benchReturns pv bcs).length = 0 := by
    intro h
    exact Nat.min_eq_zero_iff.mp h
  unfold alignedReturns alignedBench
  rw [takeLastPy_length, takeLastPy_length]
  split
  · next h => rcases hm0 h with h1 | h1 <;> omega
  · next h => omega

/-- When at least two points overlap, the benchmark closes are non-empty. -/
theorem overlap_ne_empty (pv bcs : List ℚ) (h : 2 ≤ overlapLen pv bcs) :
    bcs.length ≠ 0 := by
  intro h0
  rw [List.length_eq_zero] at h0
  subst h0
  unfold overlapLen benchReturns takeLastPy at h
  simp [pctChange] at h

/-- Claim C7: beta defaults to 1 when the benchmark data is missing or empty,
when fewer than 2 return points overlap, or when the benchmark variance is
zero; otherwise it is the covariance of the aligned return series over the
benchmark variance. -/
theorem beta_default_guards (pv : List ℚ) (bd : Option (List ℚ)) :
    (bd = none → betaMetric pv bd = 1)
    ∧ (bd = some [] → betaMetric pv bd = 1)
    ∧ (∀ bcs, bd = some bcs → overlapLen pv bcs < 2 → betaMetric pv bd = 1)
    ∧ (∀ bcs, bd = some bcs → 2 ≤ overlapLen pv bcs →
        varPop (alignedBench pv bcs) = 0 → betaMetric pv bd = 1)
    ∧ (∀ bcs, bd = some bcs → 2 ≤ overlapLen pv bcs →
        varPop (alignedBench pv bcs) ≠ 0 →
        betaMetric pv bd =
          covSample (alignedReturns pv bcs) (alignedBench pv bcs) /
            varPop (alignedBench pv bcs)) := by
  refine ⟨?_, ?_, ?_, ?_, ?_⟩
  · intro h; subst h; rfl
  · intro h; subst h; rfl
  · intro bcs hbd hlt
    subst hbd
    by_cases h0 : bcs.length = 0
    · simp [betaMetric, h0]
    · have hg : ¬(1 < (alignedReturns pv bcs).length ∧
          1 < (alignedBench pv bcs).length) := by
        rw [beta_guard_iff]; omega
      simp [betaMetric, h0, hg]
  · intro bcs hbd hov hvar
    subst hbd
    have h0 : bcs.length ≠ 0 := overlap_ne_empty pv bcs hov
    have hg : 1 < (alignedReturns pv bcs).length ∧
        1 < (alignedBench pv bcs).length := (beta_guard_iff pv bcs).mpr hov
    simp [betaMetric, h0, hg, hvar]
  · intro bcs hbd hov hvar
    subst hbd
    have h0 : bcs.length ≠ 0 := overlap_ne_empty pv bcs hov
    have hg : 1 < (alignedReturns pv bcs).length ∧
        1 < (alignedBench pv bcs).length := (beta_guard_iff pv bcs).mpr hov
    simp [betaMetric, h0, hg, hvar]

/-- Witness for C7: with no benchmark data at all, beta is the default 1. -/
theorem beta_default_guards_witness : betaMetric [1, 2] none = 1 :=
  (beta_default_guards [1, 2] none).1 rfl

/-- Claim C8: the Sharpe ratio is 0 whenever the standard deviation of the
period-over-period returns is zero, and `mean / std * sqrt 252` otherwise. -/
theorem sharpe_zero_guard (pv : List ℚ) :
    (sampleStd (pctChange pv) = 0 → sharpe pv = 0)
    ∧ (sampleStd (pctChange pv) ≠ 0 →
        sharpe pv = ((listMean (pctChange pv) : ℚ) : ℝ) /
          sampleStd (pctChange pv) * Real.sqrt 252) := by
  constructor
  · intro h
    simp [sharpe, h]
  · intro h
    simp [sharpe, h]

/-- Witness for C8: a flat value series has zero-variance returns and Sharpe
ratio 0. -/
theorem sharpe_zero_guard_witness :
    sampleStd (pctChange [1, 1, 1]) = 0 ∧ sharpe [1, 1, 1] = 0 := by
  have hvar : sampleVar (pctChange [(1 : ℚ), 1, 1]) = 0 := by
    norm_num [sampleVar, pctChange, listMean]
  have hstd : sampleStd (pctChange [(1 : ℚ), 1, 1]) = 0 := by
    unfold sampleStd
    rw [hvar]
    simp
  exact ⟨hstd, (sharpe_zero_guard [1, 1, 1]).1 hstd⟩


/-- Claim C1 (the worker performs no claim): delivered a job whose ledger row
is already IN_PROGRESS — a duplicate delivery — the worker does not observe
any claim failure and does not exit; it unconditionally rewrites the ledger,
re-renders, re-uploads, and finishes the job.  The side effects the claim
forbids are all present: a fresh upload, and the row rewritten to FINISHED. -/
theorem worker_reprocesses_unclaimed_duplicate :
    (processRecord goodCache noApi dupMsg 3 dupState).1 = .finishedOk
    ∧ (processRecord goodCache noApi dupMsg 3 dupState).2.uploads =
        [s3KeyFor 7 1 3]
    ∧ (processRecord goodCache noApi dupMsg 3 dupState).2.ledger (1, 7) =
        some { status := "FINISHED", s3_key := some (s3KeyFor 7 1 3),
               updated_at := some 3 } := by
  refine ⟨?_, ?_, ?_⟩ <;> decide

/-- Claim C4 (the rejection path crashes): for a job whose ticker resolves
neither from cache nor live source, the worker raises out of the rejection
handler itself (`base.Status` has no REJECTED member), so the row stays
IN_PROGRESS with no error message, nothing reaches the dead-letter queue,
and the error propagates — the queue retries instead of the claimed
REJECTED + DLQ + no-retry outcome. -/
theorem rejection_handler_crash_no_dlq :
    (processRecord emptyCache noApi unresolvableMsg 3 queuedState).1 =
      .raisedAttributeError
    ∧ (processRecord emptyCache noApi unresolvableMsg 3 queuedState).2.dlq = []
    ∧ (processRecord emptyCache noApi unresolvableMsg 3 queuedState).2.ledger
        (1, 1) = some { status := "IN_PROGRESS", updated_at := some 3 } := by
  refine ⟨?_, ?_, ?_⟩ <;> decide

/-- Claim C5 (the reconciler's update call always fails): a well-formed
wrapped dead-letter message for the QUEUED row (1, 2) is unwrapped, but the
`update_report_status(..., error_msg=...)` call raises TypeError
(`db.update_report_status` has no `error_msg` parameter), so the row is never
force-set to FAILED and the handler reports 0 processed messages. -/
theorem dlq_failed_update_type_error :
    (dlqLambdaHandler [dlqWrapped] ledgerWithQueued).1 = 0
    ∧ (dlqLambdaHandler [dlqWrapped] ledgerWithQueued).2 (1, 2) =
        some queuedRow := by
  refine ⟨?_, ?_⟩ <;> decide

end ReportLab
